import Mathlib

/-!
# Verification of the LLM-Connector batch/file/connector layer

A shallow embedding of the `llm_connector` package (providers `anthropic` and
`openai`), faithful to the Python sources:

* `llm_connector/providers/anthropic/batch.py` — `AnthropicBatchProcess` and
  `AnthropicAsyncBatchProcess` (the two classes have textually identical
  `_parse_requests`, `_format_result_entry`, `_format_content_block`,
  `_to_batch_request` and `_handle_exception` bodies, so each is embedded once);
* `llm_connector/providers/anthropic/fileapi.py` — `AnthropicFileAPI._handle_exception`;
* `llm_connector/providers/openai/fileapi.py` — `OpenAIFileAPI._handle_exception`;
* `llm_connector/providers/openai/__init__.py` — `OpenAIConnector` construction,
  `_validate_config`, and the cached `chat()`/`batch()`/`file()` accessors.

The shared data-model and exception modules (`llm_connector/base/batch.py`,
`llm_connector/exceptions.py`) are re-exported by `base/__init__.py` but their
module bodies are not in the sources, so those plain data declarations are
modelled from the spec; all behaviour proved about them comes from the provider
adapter code above.

Python-isms are made explicit: optional values are `Option`, truthiness of an
optional string treats `None` and `""` as falsy, exceptions become `Except`
error values, and the provider SDK (the sole network collaborator) is an
explicit input: a fetched response, a yielded iterator sequence, or an
abstract `json.loads` parameter.
-/

set_option linter.unusedVariables false

namespace LLMConnector

/-- Modelled from the spec: the unified `BatchStatus` enumeration (§3), declared
in `llm_connector/base/batch.py` (module body not in the sources; the variant
names are used throughout the adapter code). -/
inductive BatchStatus where
  | VALIDATING
  | IN_PROGRESS
  | FINALIZING
  | COMPLETED
  | FAILED
  | EXPIRED
  | CANCELLED
  | CANCELLING
  deriving DecidableEq, Repr

/-- Modelled from the spec: `BatchTimestamp` (§3), declared in
`llm_connector/base/batch.py` (module body not in the sources): `created_at`
required, every other milestone optional.  The field names are exactly the
keyword arguments used at `anthropic/batch.py` lines 280-288. -/
structure BatchTimestamp where
  created_at : String
  in_progress_at : Option String
  cancelled_at : Option String
  completed_at : Option String
  expired_at : Option String
  failed_at : Option String
  finalized_at : Option String
  deriving DecidableEq, Repr

/-- Modelled from the spec: the `BatchRequest` job handle (§3), declared in
`llm_connector/base/batch.py` (module body not in the sources).  The field
names are exactly the keyword arguments used at `anthropic/batch.py` lines
307-317.  `request_counts` is an insertion-ordered string-keyed mapping
(a Python dict), embedded as an association list. -/
structure BatchRequest where
  id : String
  status : BatchStatus
  timestamps : BatchTimestamp
  completion_window : String
  input_file_id : String
  output_file_id : Option String
  error_file_id : Option String
  endpoint : String
  request_counts : Option (List (String × Int))
  deriving DecidableEq, Repr

/-- The native `request_counts` object of an Anthropic batch response, with the
five sub-counters read at `anthropic/batch.py` lines 292-305. -/
structure NativeRequestCounts where
  processing : Int
  succeeded : Int
  errored : Int
  canceled : Int
  expired : Int
  deriving DecidableEq, Repr

/-- The fields of a native Anthropic batch response that
`AnthropicBatchProcess._to_batch_request` reads.  Timestamps are optional
strings (`None` in Python becomes `none`). -/
structure AnthropicBatchResponse where
  id : String
  processing_status : String
  created_at : Option String
  cancel_initiated_at : Option String
  ended_at : Option String
  expires_at : Option String
  request_counts : Option NativeRequestCounts
  deriving DecidableEq, Repr

/-- Python truthiness of an optional string: `None` and `""` are falsy. -/
def pyTruthy : Option String → Bool
  | none => false
  | some s => !(s == "")

/-- The `status_map` dict literal of `_to_batch_request`
(`anthropic/batch.py` lines 273-277), as a partial lookup: the three listed
native `processing_status` values and nothing else. -/
def status_map (s : String) : Option BatchStatus :=
  if s = "in_progress" then some BatchStatus.IN_PROGRESS
  else if s = "canceling" then some BatchStatus.CANCELLED
  else if s = "ended" then some BatchStatus.COMPLETED
  else none

/-- `AnthropicBatchProcess._to_batch_request` (`anthropic/batch.py` lines
271-317; `AnthropicAsyncBatchProcess._to_batch_request`, lines 562-607, is
textually identical).  `status_map.get(x, IN_PROGRESS)` is `(status_map x).getD
IN_PROGRESS`; `response.created_at if response.created_at else ""` is the
truthiness guard on the optional string. -/
def to_batch_request (response : AnthropicBatchResponse) : BatchRequest :=
  let timestamps : BatchTimestamp :=
    { created_at := if pyTruthy response.created_at then response.created_at.getD "" else ""
      in_progress_at := none
      cancelled_at := response.cancel_initiated_at
      completed_at := response.ended_at
      expired_at := response.expires_at
      failed_at := none
      finalized_at := response.ended_at }
  let request_counts : Option (List (String × Int)) :=
    match response.request_counts with
    | none => none
    | some c => some
        [("total", c.processing + c.succeeded + c.errored + c.canceled + c.expired),
         ("completed", c.succeeded),
         ("failed", c.errored),
         ("canceled", c.canceled),
         ("expired", c.expired),
         ("processing", c.processing)]
  { id := response.id
    status := (status_map response.processing_status).getD BatchStatus.IN_PROGRESS
    timestamps := timestamps
    completion_window := "24h"
    input_file_id := ""
    output_file_id := none
    error_file_id := none
    endpoint := "/v1/messages"
    request_counts := request_counts }

/-- A sample in-progress Anthropic batch response. -/
def sampleInProgress : AnthropicBatchResponse :=
  { id := "msgbatch_a"
    processing_status := "in_progress"
    created_at := some "2024-01-01T00:00:00Z"
    cancel_initiated_at := none
    ended_at := none
    expires_at := some "2024-01-02T00:00:00Z"
    request_counts := none }

/-- A sample cancel-in-flight Anthropic batch response. -/
def sampleCanceling : AnthropicBatchResponse :=
  { id := "msgbatch_b"
    processing_status := "canceling"
    created_at := some "2024-01-01T00:00:00Z"
    cancel_initiated_at := some "2024-01-01T00:30:00Z"
    ended_at := none
    expires_at := some "2024-01-02T00:00:00Z"
    request_counts := none }

/-- A sample ended Anthropic batch response. -/
def sampleEnded : AnthropicBatchResponse :=
  { id := "msgbatch_c"
    processing_status := "ended"
    created_at := some "2024-01-01T00:00:00Z"
    cancel_initiated_at := none
    ended_at := some "2024-01-01T01:00:00Z"
    expires_at := some "2024-01-02T00:00:00Z"
    request_counts := some { processing := 0, succeeded := 2, errored := 1, canceled := 0, expired := 0 } }

/-- C1: the Anthropic adapter maps native `processing_status` onto the unified
`BatchStatus` exactly per the documented table — `"in_progress"` to
`IN_PROGRESS`, `"canceling"` to `CANCELLED` (the in-flight cancel state is
collapsed and `CANCELLING` is never surfaced), and `"ended"` to `COMPLETED`. -/
theorem anthropic_status_mapping (r : AnthropicBatchResponse) :
    (r.processing_status = "in_progress" → (to_batch_request r).status = BatchStatus.IN_PROGRESS)
    ∧ (r.processing_status = "canceling" → (to_batch_request r).status = BatchStatus.CANCELLED)
    ∧ (r.processing_status = "ended" → (to_batch_request r).status = BatchStatus.COMPLETED)
    ∧ (to_batch_request r).status ≠ BatchStatus.CANCELLING := by
  refine ⟨fun h => by simp [to_batch_request, status_map, h],
          fun h => by simp [to_batch_request, status_map, h],
          fun h => by simp [to_batch_request, status_map, h], ?_⟩
  by_cases h1 : r.processing_status = "in_progress" <;>
  by_cases h2 : r.processing_status = "canceling" <;>
  by_cases h3 : r.processing_status = "ended" <;>
  simp [to_batch_request, status_map, h1, h2, h3]

/-- C1 witness: the three documented native statuses evaluated on concrete
responses. -/
theorem anthropic_status_mapping_witness :
    (to_batch_request sampleInProgress).status = BatchStatus.IN_PROGRESS
    ∧ (to_batch_request sampleCanceling).status = BatchStatus.CANCELLED
    ∧ (to_batch_request sampleEnded).status = BatchStatus.COMPLETED :=
  ⟨(anthropic_status_mapping sampleInProgress).1 rfl,
   (anthropic_status_mapping sampleCanceling).2.1 rfl,
   (anthropic_status_mapping sampleEnded).2.2.1 rfl⟩

/-- A native Anthropic batch response whose `processing_status` lies outside the
documented vocabulary (Anthropic spells the terminal cancel state differently;
`"canceled"` is not one of `"in_progress"`, `"canceling"`, `"ended"`). -/
def sampleUnmapped : AnthropicBatchResponse :=
  { id := "msgbatch_d"
    processing_status := "canceled"
    created_at := some "2024-01-01T00:00:00Z"
    cancel_initiated_at := some "2024-01-01T00:30:00Z"
    ended_at := none
    expires_at := some "2024-01-02T00:00:00Z"
    request_counts := none }

/-- C2 counterexample: `"canceled"` is outside the documented vocabulary
(`status_map` has no entry for it), yet `_to_batch_request` raises nothing and
silently produces the default `IN_PROGRESS` status — `status_map.get(x,
BatchStatus.IN_PROGRESS)` supplies a silent default instead of a hard decode
error. -/
theorem unmapped_status_silently_defaulted_cex :
    status_map sampleUnmapped.processing_status = none
    ∧ (to_batch_request sampleUnmapped).status = BatchStatus.IN_PROGRESS :=
  ⟨rfl, rfl⟩

/-- C2 (amended): every native `processing_status` outside the documented
vocabulary is silently mapped to the default unified status `IN_PROGRESS`;
the status-normalization step raises no error. -/
theorem unmapped_status_maps_to_default (r : AnthropicBatchResponse)
    (h1 : r.processing_status ≠ "in_progress")
    (h2 : r.processing_status ≠ "canceling")
    (h3 : r.processing_status ≠ "ended") :
    (to_batch_request r).status = BatchStatus.IN_PROGRESS := by
  simp [to_batch_request, status_map, h1, h2, h3]

/-- C2 witness: the amended claim evaluated on the concrete out-of-vocabulary
response. -/
theorem unmapped_status_maps_to_default_witness :
    (to_batch_request sampleUnmapped).status = BatchStatus.IN_PROGRESS :=
  unmapped_status_maps_to_default sampleUnmapped
    (by decide) (by decide) (by decide)

/-- C4 counterexample: on a concrete ended batch, the native response reports
no finalize milestone (Anthropic has no finalizing state at all), yet
`finalized_at` is populated — copied from `ended_at`, the same native field
that also populates `completed_at`; likewise `expired_at` is populated from
the expiry *deadline* `expires_at` although the batch never expired.  So a
milestone the provider does not report is not left `None`, and its value is
fabricated from another field. -/
theorem anthropic_timestamp_fabrication_cex :
    (to_batch_request sampleEnded).timestamps.finalized_at = sampleEnded.ended_at
    ∧ (to_batch_request sampleEnded).timestamps.completed_at = sampleEnded.ended_at
    ∧ (to_batch_request sampleEnded).timestamps.finalized_at ≠ none
    ∧ (to_batch_request sampleEnded).timestamps.expired_at = sampleEnded.expires_at
    ∧ (to_batch_request sampleEnded).timestamps.expired_at ≠ none :=
  ⟨rfl, rfl, by simp [to_batch_request, sampleEnded], rfl,
   by simp [to_batch_request, sampleEnded]⟩

/-- C4 (amended): the milestones Anthropic genuinely lacks, `in_progress_at`
and `failed_at`, are left unset, and `created_at` is taken only from the
provider's `created_at` (empty string when that is falsy); but `completed_at`
and `finalized_at` are both populated from the provider's single `ended_at`
field, `cancelled_at` from `cancel_initiated_at`, and `expired_at` from the
expiry deadline `expires_at`. -/
theorem anthropic_timestamps (r : AnthropicBatchResponse) :
    (to_batch_request r).timestamps.in_progress_at = none
    ∧ (to_batch_request r).timestamps.failed_at = none
    ∧ (to_batch_request r).timestamps.created_at
        = (if pyTruthy r.created_at then r.created_at.getD "" else "")
    ∧ (to_batch_request r).timestamps.cancelled_at = r.cancel_initiated_at
    ∧ (to_batch_request r).timestamps.completed_at = r.ended_at
    ∧ (to_batch_request r).timestamps.finalized_at = r.ended_at
    ∧ (to_batch_request r).timestamps.expired_at = r.expires_at :=
  ⟨rfl, rfl, rfl, rfl, rfl, rfl, rfl⟩

/-- C6: the Anthropic adapter always sets `input_file_id` to the empty string
and leaves `output_file_id` unset, and when native request counts are present
the produced `request_counts["total"]` is the sum of the five native
sub-counters. -/
theorem anthropic_no_file_ids_and_total_count (r : AnthropicBatchResponse) :
    (to_batch_request r).input_file_id = ""
    ∧ (to_batch_request r).output_file_id = none
    ∧ ∀ c, r.request_counts = some c →
        ∃ m, (to_batch_request r).request_counts = some m
          ∧ m.lookup "total"
              = some (c.processing + c.succeeded + c.errored + c.canceled + c.expired) := by
  refine ⟨rfl, rfl, fun c h => ?_⟩
  exact ⟨[("total", c.processing + c.succeeded + c.errored + c.canceled + c.expired),
          ("completed", c.succeeded), ("failed", c.errored), ("canceled", c.canceled),
          ("expired", c.expired), ("processing", c.processing)],
         by simp [to_batch_request, h], rfl⟩

/-- C6 witness: the ended sample carries counts (0, 2, 1, 0, 0), whose
recomputed total is 3. -/
theorem anthropic_no_file_ids_and_total_count_witness :
    ∃ m, (to_batch_request sampleEnded).request_counts = some m
      ∧ m.lookup "total" = some 3 :=
  (anthropic_no_file_ids_and_total_count sampleEnded).2.2
    { processing := 0, succeeded := 2, errored := 1, canceled := 0, expired := 0 } rfl

/-- Modelled from the spec: the library exception taxonomy (§7), declared in
`llm_connector/exceptions.py` (module body not in the sources; the constructors
and their arguments are those used by the adapter code: a message, plus
`status_code` on `APIError` and `retry_after` on `RateLimitError`). -/
inductive LLMError where
  | authenticationError (msg : String)
  | rateLimitError (msg : String) (retry_after : Option Int)
  | invalidRequestError (msg : String)
  | contextLengthExceededError (msg : String)
  | contentFilterError (msg : String)
  | apiError (msg : String) (status_code : Option Int)
  | batchError (msg : String)
  | fileError (msg : String)
  | providerNotSupportedError (msg : String)
  | providerImportError (msg : String)
  deriving DecidableEq, Repr

/-- A native provider-SDK exception, distinguished exactly as far as the
adapters' `isinstance` chains distinguish them.  In both SDKs
`AuthenticationError`, `NotFoundError` and `BadRequestError` are subclasses of
`APIError`, and the chains test the subclasses first, so the variants are
disjoint: `apiError` is any *other* SDK `APIError`, and `other` is any
exception outside the SDK hierarchy.  `msg` is `str(e)`; `status_code` is the
`status_code` attribute (`getattr(e, "status_code", None)` yields `none` on
`other`). -/
inductive NativeExc where
  | authentication (msg : String) (status_code : Option Int)
  | notFound (msg : String) (status_code : Option Int)
  | badRequest (msg : String) (status_code : Option Int)
  | apiError (msg : String) (status_code : Option Int)
  | other (msg : String)
  deriving DecidableEq, Repr

/-- `str(e)` of a native exception. -/
def nativeMsg : NativeExc → String
  | .authentication m _ => m
  | .notFound m _ => m
  | .badRequest m _ => m
  | .apiError m _ => m
  | .other m => m

/-- `AnthropicBatchProcess._handle_exception` (`anthropic/batch.py` lines
319-333; the async class body, lines 609-623, is textually identical).  The
`imp` flag is whether `import anthropic` succeeds inside the handler.  A
`BadRequestError` has no dedicated branch here and is caught by the
`anthropic.APIError` test (it is a subclass). -/
def anthropic_batch_handle_exception (imp : Bool) (e : NativeExc) : LLMError :=
  if !imp then LLMError.batchError (nativeMsg e)
  else match e with
  | .authentication m _ => LLMError.authenticationError m
  | .notFound m _ => LLMError.batchError ("Batch not found: " ++ m)
  | .badRequest m sc => LLMError.apiError m sc
  | .apiError m sc => LLMError.apiError m sc
  | .other m => LLMError.batchError m

/-- `OpenAIFileAPI._handle_exception` (`openai/fileapi.py` lines 124-138).
`BadRequestError` is caught by the `openai.APIError` branch (a subclass). -/
def openai_file_handle_exception (imp : Bool) (e : NativeExc) : LLMError :=
  if !imp then LLMError.fileError (nativeMsg e)
  else match e with
  | .authentication m _ => LLMError.authenticationError m
  | .notFound m _ => LLMError.fileError ("File not found: " ++ m)
  | .badRequest m sc => LLMError.apiError m sc
  | .apiError m sc => LLMError.apiError m sc
  | .other m => LLMError.fileError m

/-- `AnthropicFileAPI._handle_exception` (`anthropic/fileapi.py` lines
194-210; this chain tests `BadRequestError` separately). -/
def anthropic_file_handle_exception (imp : Bool) (e : NativeExc) : LLMError :=
  if !imp then LLMError.fileError (nativeMsg e)
  else match e with
  | .authentication m _ => LLMError.authenticationError m
  | .notFound m _ => LLMError.fileError ("File not found: " ++ m)
  | .badRequest m _ => LLMError.fileError ("Invalid request: " ++ m)
  | .apiError m sc => LLMError.apiError m sc
  | .other m => LLMError.fileError m

/-- What can cross an adapter boundary as an exception: a raw native SDK
exception (`Sum.inl`) or a translated library error (`Sum.inr`).  The adapter
code only ever raises the latter. -/
abbrev BoundaryError := Sum NativeExc LLMError

/-- A native content block of an Anthropic batch result message, as far as
`_format_content_block` inspects it (`other` also covers objects without a
`type` attribute); `input` is the decoded tool input payload, kept opaque. -/
inductive NativeContentBlock where
  | text (text : String)
  | tool_use (id : String) (name : String) (input : String)
  | other
  deriving DecidableEq, Repr

/-- The dict produced by `_format_content_block` (`anthropic/batch.py` lines
257-269). -/
inductive FormattedBlock where
  | text (text : String)
  | tool_use (id : String) (name : String) (input : String)
  | unknown
  deriving DecidableEq, Repr

/-- `AnthropicBatchProcess._format_content_block`. -/
def format_content_block : NativeContentBlock → FormattedBlock
  | .text t => .text t
  | .tool_use i n inp => .tool_use i n inp
  | .other => .unknown

/-- Native usage object on a batch result message. -/
structure NativeUsage where
  input_tokens : Int
  output_tokens : Int
  deriving DecidableEq, Repr

/-- The native message carried by a succeeded Anthropic batch result entry,
with the fields `_format_result_entry` reads. -/
structure NativeMessage where
  id : String
  type : String
  role : String
  content : List NativeContentBlock
  model : String
  stop_reason : Option String
  usage : Option NativeUsage
  deriving DecidableEq, Repr

/-- The message dict built by `_format_result_entry` for a succeeded entry:
`usage` collapses to the `(input_tokens, output_tokens)` pair, or `None` when
the native usage is falsy. -/
structure FormattedMessage where
  id : String
  type : String
  role : String
  content : List FormattedBlock
  model : String
  stop_reason : Option String
  usage : Option (Int × Int)
  deriving DecidableEq, Repr

/-- The message-formatting part of `_format_result_entry`
(`anthropic/batch.py` lines 228-247). -/
def format_message (m : NativeMessage) : FormattedMessage :=
  { id := m.id
    type := m.type
    role := m.role
    content := m.content.map format_content_block
    model := m.model
    stop_reason := m.stop_reason
    usage := m.usage.map fun u => (u.input_tokens, u.output_tokens) }

/-- A native Anthropic batch result: its `type` tag, the `message` attribute
when present (`hasattr(result, "message")`), and the `error` attribute when
present, as its `(type, message)` pair. -/
structure NativeResult where
  type : String
  message : Option NativeMessage
  error : Option (String × String)
  deriving DecidableEq, Repr

/-- The dict built by `_format_result_entry`: always the `type` tag; the
formatted message only for a succeeded entry carrying one; the error pair only
for an errored entry carrying one. -/
structure FormattedResult where
  type : String
  message : Option FormattedMessage
  error : Option (String × String)
  deriving DecidableEq, Repr

/-- `AnthropicBatchProcess._format_result_entry` (`anthropic/batch.py` lines
223-255). -/
def format_result_entry (r : NativeResult) : FormattedResult :=
  if r.type = "succeeded" then
    { type := r.type, message := r.message.map format_message, error := none }
  else if r.type = "errored" then
    { type := r.type, message := none, error := r.error }
  else
    { type := r.type, message := none, error := none }

/-- One entry yielded by the native `client.messages.batches.results(job_id)`
iterator: its `custom_id` and its `result`. -/
structure NativeEntry where
  custom_id : String
  result : NativeResult
  deriving DecidableEq, Repr

/-- One record of a `BatchResult`: the dict
`{"custom_id": ..., "result": ...}` built in `result` (`anthropic/batch.py`
lines 124-129). -/
structure ResultRecord where
  custom_id : String
  result : FormattedResult
  deriving DecidableEq, Repr

/-- Modelled from the spec: the `BatchResult` container (§3), declared in
`llm_connector/base/batch.py` (module body not in the sources); field names
are the keyword arguments used at `anthropic/batch.py` lines 131-135. -/
structure BatchResult where
  job_id : String
  output_file_id : Option String
  records : List ResultRecord
  deriving DecidableEq, Repr

/-- `AnthropicBatchProcess.status` (`anthropic/batch.py` lines 85-99): the
SDK fetch either returns a native response or raises a native exception,
which is translated at the boundary. -/
def status_op (imp : Bool) (fetch : Except NativeExc AnthropicBatchResponse) :
    Except BoundaryError BatchRequest :=
  match fetch with
  | .ok r => .ok (to_batch_request r)
  | .error e => .error (Sum.inr (anthropic_batch_handle_exception imp e))

/-- `AnthropicBatchProcess.cancel` (`anthropic/batch.py` lines 142-160). -/
def cancel_op (imp : Bool) (fetch : Except NativeExc AnthropicBatchResponse) :
    Except BoundaryError BatchRequest :=
  match fetch with
  | .ok r => .ok (to_batch_request r)
  | .error e => .error (Sum.inr (anthropic_batch_handle_exception imp e))

/-- `AnthropicBatchProcess.result` (`anthropic/batch.py` lines 101-140; the
async body, lines 400-435, is structurally identical): fetch the batch, gate
on the terminal-successful sentinel `"ended"` (raising `BatchError`
otherwise — re-raised as-is by `except BatchError: raise`), then decode the
native results iterator into records in yield order. -/
def result_op (imp : Bool) (job_id : String)
    (fetch : Except NativeExc AnthropicBatchResponse)
    (resultsIter : Except NativeExc (List NativeEntry)) :
    Except BoundaryError BatchResult :=
  match fetch with
  | .error e => .error (Sum.inr (anthropic_batch_handle_exception imp e))
  | .ok batch =>
    if batch.processing_status ≠ "ended" then
      .error (Sum.inr (LLMError.batchError
        ("Batch job is not completed. Current status: " ++ batch.processing_status)))
    else match resultsIter with
      | .error e => .error (Sum.inr (anthropic_batch_handle_exception imp e))
      | .ok entries =>
        .ok { job_id := job_id
              output_file_id := none
              records := entries.map fun en =>
                { custom_id := en.custom_id, result := format_result_entry en.result } }

/-- C3: `result(job_id)` raises `BatchError` whenever the fetched native
status differs from the terminal-successful sentinel `"ended"`, and for an
ended job with well-formed output it does not raise, returning a
`BatchResult` whose records are the decoded result entries keyed by
`custom_id` in original order. -/
theorem result_terminal_gate (imp : Bool) (jid : String)
    (batch : AnthropicBatchResponse)
    (resultsIter : Except NativeExc (List NativeEntry)) :
    (batch.processing_status ≠ "ended" →
      result_op imp jid (.ok batch) resultsIter
        = .error (Sum.inr (LLMError.batchError
            ("Batch job is not completed. Current status: " ++ batch.processing_status))))
    ∧ (batch.processing_status = "ended" →
        ∀ entries, resultsIter = .ok entries →
          result_op imp jid (.ok batch) resultsIter
              = .ok { job_id := jid
                      output_file_id := none
                      records := entries.map fun en =>
                        { custom_id := en.custom_id
                          result := format_result_entry en.result } }
          ∧ ∀ out, result_op imp jid (.ok batch) resultsIter = .ok out →
              out.records.map (fun rec => rec.custom_id)
                = entries.map fun en => en.custom_id) := by
  constructor
  · intro h
    simp [result_op, h]
  · intro h entries hit
    subst hit
    refine ⟨by simp [result_op, h], ?_⟩
    intro out hout
    simp [result_op, h] at hout
    subst hout
    simp

/-- C3 witness: a non-ended job is rejected and an ended job with two entries
yields the two custom ids in order. -/
theorem result_terminal_gate_witness :
    (result_op true "msgbatch_a" (.ok sampleInProgress)
        (.ok [])
      = .error (Sum.inr (LLMError.batchError
          "Batch job is not completed. Current status: in_progress")))
    ∧ result_op true "msgbatch_c" (.ok sampleEnded)
        (.ok [{ custom_id := "request-1",
                result := { type := "succeeded", message := none, error := none } },
              { custom_id := "request-2",
                result := { type := "errored", message := none,
                            error := some ("invalid_request", "bad params") } }])
      = .ok { job_id := "msgbatch_c"
              output_file_id := none
              records := [{ custom_id := "request-1",
                            result := { type := "succeeded", message := none, error := none } },
                          { custom_id := "request-2",
                            result := { type := "errored", message := none,
                                        error := some ("invalid_request", "bad params") } }] } := by
  constructor
  · exact (result_terminal_gate true "msgbatch_a" sampleInProgress (.ok [])).1 (by decide)
  · exact ((result_terminal_gate true "msgbatch_c" sampleEnded _).2 rfl _ rfl).1

/-- ASCII whitespace, as Python `str.strip` and blank-line detection see it
(space, tab, newline, vertical tab, form feed, carriage return). -/
def isPySpace (c : Char) : Bool :=
  c == ' ' || c == Char.ofNat 9 || c == Char.ofNat 10 || c == Char.ofNat 11
    || c == Char.ofNat 12 || c == Char.ofNat 13

/-- Python `str.strip()` on a sequence of characters. -/
def pyStrip (cs : List Char) : List Char :=
  ((cs.dropWhile isPySpace).reverse.dropWhile isPySpace).reverse

/-- Python `str.split("\n")`: splits on every newline, keeping empty pieces
(so `"".split("\n") == [""]`). -/
def pySplitNl : List Char → List (List Char)
  | [] => [[]]
  | c :: cs =>
    if c == Char.ofNat 10 then [] :: pySplitNl cs
    else
      match pySplitNl cs with
      | [] => [[c]]
      | l :: ls => (c :: l) :: ls

/-- A line is blank when `line.strip()` is falsy (empty). -/
def pyBlank (cs : List Char) : Bool := (pyStrip cs).isEmpty

/-- The line loop of `AnthropicBatchProcess._parse_requests`
(`anthropic/batch.py` lines 213-221): skip blank lines; parse each remaining
line with `json.loads`, aborting the whole parse with a `BatchError` carrying
the offending line's decode-error message on the first failure.  `parseJson`
stands for the stdlib collaborator `json.loads` (decoded value or decode-error
message); `α` is the type of decoded request objects. -/
def parse_lines {α : Type} (parseJson : List Char → Except String α) :
    List (List Char) → Except LLMError (List α)
  | [] => Except.ok []
  | l :: ls =>
    if pyBlank l then parse_lines parseJson ls
    else
      match parseJson l with
      | .error e => .error (LLMError.batchError ("Invalid JSON in batch file: " ++ e))
      | .ok v =>
        match parse_lines parseJson ls with
        | .error err => .error err
        | .ok vs => .ok (v :: vs)

/-- `AnthropicBatchProcess._parse_requests` (`anthropic/batch.py` lines
191-221; the async body, lines 482-512, is textually identical): a direct
request list short-circuits everything; no file at all yields the empty list;
otherwise the file content (path, bytes and stream inputs all reduce to their
character content) is stripped, split on newlines and parsed per line. -/
def parse_requests {α : Type} (parseJson : List Char → Except String α)
    (file : Option (List Char)) (requests : Option (List α)) :
    Except LLMError (List α) :=
  match requests with
  | some rs => .ok rs
  | none =>
    match file with
    | none => .ok []
    | some content => parse_lines parseJson (pySplitNl (pyStrip content))

/-- The request-collection phase of `AnthropicBatchProcess.create`
(`anthropic/batch.py` lines 69-76): parse, then reject an empty request list
with `BatchError` before anything is submitted.  (The source message reads
`No requests provided. Use ... parameter.` with quoted parameter names; the
quote characters are elided here.) -/
def create_requests {α : Type} (parseJson : List Char → Except String α)
    (file : Option (List Char)) (requests : Option (List α)) :
    Except LLMError (List α) :=
  match parse_requests parseJson file requests with
  | .error e => .error e
  | .ok rs =>
    if rs.isEmpty then
      .error (LLMError.batchError "No requests provided. Use file or requests parameter.")
    else .ok rs

/-- `AnthropicBatchProcess.create` (`anthropic/batch.py` lines 44-83):
`submit` is the SDK call `client.messages.batches.create(requests=...)`,
reached only when `create_requests` succeeds; a `BatchError` raised before it
is re-raised unchanged (`except BatchError: raise`), and a native exception
from the SDK call is translated at the boundary. -/
def create_op {α : Type} (imp : Bool) (parseJson : List Char → Except String α)
    (submit : List α → Except NativeExc AnthropicBatchResponse)
    (file : Option (List Char)) (requests : Option (List α)) :
    Except BoundaryError BatchRequest :=
  match create_requests parseJson file requests with
  | .error be => .error (Sum.inr be)
  | .ok rs =>
    match submit rs with
    | .error e => .error (Sum.inr (anthropic_batch_handle_exception imp e))
    | .ok resp => .ok (to_batch_request resp)

/-- A prefix of lines is innocuous when each of its lines is blank or parses
successfully — i.e. the loop passes it without aborting. -/
def innocuousLines {α : Type} (parseJson : List Char → Except String α)
    (ls : List (List Char)) : Prop :=
  ∀ l ∈ ls, pyBlank l = true ∨ ∃ v, parseJson l = Except.ok v

/-- On an all-innocuous line list the loop succeeds, returning the parses of
the non-blank lines in order. -/
theorem parse_lines_ok {α : Type} (parseJson : List Char → Except String α)
    (ls : List (List Char)) (h : innocuousLines parseJson ls) :
    ∃ vs, parse_lines parseJson ls = Except.ok vs := by
  induction ls with
  | nil => exact ⟨[], rfl⟩
  | cons l ls ih =>
    have hl := h l (List.mem_cons_self l ls)
    have hrest : innocuousLines parseJson ls := fun x hx => h x (List.mem_cons_of_mem l hx)
    obtain ⟨vs, hvs⟩ := ih hrest
    by_cases hb : pyBlank l = true
    · exact ⟨vs, by simp [parse_lines, hb, hvs]⟩
    · rcases hl with hl | ⟨v, hv⟩
      · exact absurd hl hb
      · exact ⟨v :: vs, by simp [parse_lines, hb, hv, hvs]⟩

/-- The first failing non-blank line aborts the loop with a `BatchError`
carrying that line's decode-error message. -/
theorem parse_lines_first_error {α : Type}
    (parseJson : List Char → Except String α)
    (pre : List (List Char)) (l : List Char) (rest : List (List Char))
    (hpre : innocuousLines parseJson pre) (hnb : pyBlank l = false)
    (e : String) (he : parseJson l = Except.error e) :
    parse_lines parseJson (pre ++ l :: rest)
      = Except.error (LLMError.batchError ("Invalid JSON in batch file: " ++ e)) := by
  induction pre with
  | nil => simp [parse_lines, hnb, he]
  | cons p ps ih =>
    have hp := hpre p (List.mem_cons_self p ps)
    have hrest : innocuousLines parseJson ps := fun x hx => hpre x (List.mem_cons_of_mem p hx)
    have htail := ih hrest
    by_cases hb : pyBlank p = true
    · simpa [parse_lines, hb] using htail
    · rcases hp with hp | ⟨v, hv⟩
      · exact absurd hp hb
      · simp [parse_lines, hb, hv, htail]

/-- A file of blank lines only parses to the empty request list. -/
theorem parse_lines_all_blank {α : Type} (parseJson : List Char → Except String α)
    (ls : List (List Char)) (h : ∀ l ∈ ls, pyBlank l = true) :
    parse_lines parseJson ls = Except.ok [] := by
  induction ls with
  | nil => rfl
  | cons l ls ih =>
    have hl := h l (List.mem_cons_self l ls)
    have := ih fun x hx => h x (List.mem_cons_of_mem l hx)
    simp [parse_lines, hl, this]

/-- C5: `create` raises `BatchError` when neither a file payload nor a direct
request list is supplied, when the direct list is empty, and when the supplied
file reduces to zero requests (all-blank lines); the first non-blank line
failing to parse as JSON aborts the whole create with a `BatchError` carrying
that line's parse-error message, for *every* possible submit call — so
nothing is submitted — while blank lines are skipped without error. -/
theorem create_error_handling {α : Type} (imp : Bool)
    (parseJson : List Char → Except String α)
    (submit : List α → Except NativeExc AnthropicBatchResponse) :
    (create_op imp parseJson submit none none
      = .error (Sum.inr (LLMError.batchError
          "No requests provided. Use file or requests parameter.")))
    ∧ (create_op imp parseJson submit none (some [])
      = .error (Sum.inr (LLMError.batchError
          "No requests provided. Use file or requests parameter.")))
    ∧ (∀ content, (∀ l ∈ pySplitNl (pyStrip content), pyBlank l = true) →
        create_op imp parseJson submit (some content) none
          = .error (Sum.inr (LLMError.batchError
              "No requests provided. Use file or requests parameter.")))
    ∧ (∀ content pre l rest e
        (submit2 : List α → Except NativeExc AnthropicBatchResponse),
        pySplitNl (pyStrip content) = pre ++ l :: rest →
        innocuousLines parseJson pre →
        pyBlank l = false →
        parseJson l = Except.error e →
        create_op imp parseJson submit2 (some content) none
          = .error (Sum.inr (LLMError.batchError
              ("Invalid JSON in batch file: " ++ e))))
    ∧ (∀ l ls, pyBlank l = true →
        parse_lines parseJson (l :: ls) = parse_lines parseJson ls) := by
  refine ⟨rfl, rfl, ?_, ?_, ?_⟩
  · intro content hall
    have h := parse_lines_all_blank parseJson _ hall
    simp [create_op, create_requests, parse_requests, h]
  · intro content pre l rest e submit2 hsplit hpre hnb he
    have h := parse_lines_first_error parseJson pre l rest hpre hnb e he
    simp [create_op, create_requests, parse_requests, hsplit, h]
  · intro l ls hb
    simp [parse_lines, hb]

/-- A toy stand-in for `json.loads`, to evaluate the parsing behaviour on a
concrete input: the line `42` decodes, anything else fails with a
CPython-style decode message. -/
def toyParse (cs : List Char) : Except String Nat :=
  if cs = "42".data then Except.ok 42
  else Except.error "Expecting value: line 1 column 1 (char 0)"

/-- A concrete JSONL payload: a good line, a blank line, then a bad line. -/
def toyContent : List Char :=
  "42".data ++ [Char.ofNat 10, Char.ofNat 10] ++ "!!".data

/-- A submit function that would fail loudly if it were ever consulted. -/
def toySubmit : List Nat → Except NativeExc AnthropicBatchResponse :=
  fun _ => Except.error (NativeExc.other "network unavailable")

/-- C5 witness: the no-input, empty-list and malformed-line cases evaluated
concretely (the bad third line of `toyContent` aborts the create with its own
decode message, past the skipped blank second line). -/
theorem create_error_handling_witness :
    (create_op true toyParse toySubmit none none
      = .error (Sum.inr (LLMError.batchError
          "No requests provided. Use file or requests parameter.")))
    ∧ (create_op true toyParse toySubmit none (some [])
      = .error (Sum.inr (LLMError.batchError
          "No requests provided. Use file or requests parameter.")))
    ∧ (create_op true toyParse toySubmit (some toyContent) none
      = .error (Sum.inr (LLMError.batchError
          "Invalid JSON in batch file: Expecting value: line 1 column 1 (char 0)"))) := by
  have h := create_error_handling true toyParse toySubmit
  refine ⟨h.1, h.2.1, ?_⟩
  refine h.2.2.2.1 toyContent ["42".data, []] "!!".data [] _ toySubmit (by decide) ?_ (by decide) rfl
  intro l hl
  simp only [List.mem_cons, List.not_mem_nil, or_false] at hl
  rcases hl with rfl | rfl
  · exact Or.inr ⟨42, rfl⟩
  · exact Or.inl rfl

/-- Modelled from the spec: `FileObject` (§3), declared in
`llm_connector/base/file.py` (module body not in the sources); field names
are the keyword arguments used at `openai/fileapi.py` lines 55-62 and
`anthropic/fileapi.py` lines 184-192. -/
structure FileObject where
  id : String
  filename : String
  purpose : String
  bytes : Int
  created_at : String
  status : String
  status_details : Option String
  deriving DecidableEq, Repr

/-- The fields of a native OpenAI file response read by
`OpenAIFileAPI.retrieve`. -/
structure NativeFileResponse where
  id : String
  filename : String
  purpose : String
  bytes : Int
  created_at : String
  status : String
  deriving DecidableEq, Repr

/-- The `FileObject` construction in `OpenAIFileAPI.retrieve`
(`openai/fileapi.py` lines 55-62): every field copied from the native
response, `status_details` left at its default. -/
def openai_to_file_object (r : NativeFileResponse) : FileObject :=
  { id := r.id
    filename := r.filename
    purpose := r.purpose
    bytes := r.bytes
    created_at := r.created_at
    status := r.status
    status_details := none }

/-- `OpenAIFileAPI.retrieve` (`openai/fileapi.py` lines 43-64). -/
def openai_file_retrieve_op (imp : Bool)
    (fetch : Except NativeExc NativeFileResponse) :
    Except BoundaryError FileObject :=
  match fetch with
  | .ok r => .ok (openai_to_file_object r)
  | .error e => .error (Sum.inr (openai_file_handle_exception imp e))

/-- The fields of a native Anthropic `FileMetadata` read by
`AnthropicFileAPI._to_file_object`. -/
structure AnthropicFileMetadata where
  id : String
  size_bytes : Int
  created_at : String
  filename : String
  deriving DecidableEq, Repr

/-- `AnthropicFileAPI._to_file_object` (`anthropic/fileapi.py` lines
182-192): synthetic constant purpose and status, no status details. -/
def anthropic_to_file_object (r : AnthropicFileMetadata) : FileObject :=
  { id := r.id
    filename := r.filename
    purpose := "user_data"
    bytes := r.size_bytes
    created_at := r.created_at
    status := "processed"
    status_details := none }

/-- `AnthropicFileAPI.list` (`anthropic/fileapi.py` lines 158-180): convert
every yielded file metadata object, translating a native exception at the
boundary. -/
def anthropic_file_list_op (imp : Bool)
    (iter : Except NativeExc (List AnthropicFileMetadata)) :
    Except BoundaryError (List FileObject) :=
  match iter with
  | .ok fs => .ok (fs.map anthropic_to_file_object)
  | .error e => .error (Sum.inr (anthropic_file_handle_exception imp e))

/-- A downloaded file body (`response.content` for OpenAI,
`response.read()` for Anthropic), kept as an opaque byte sequence. -/
abbrev Bytes := List Nat

/-- The native response of an SDK file-upload call, as far as the adapters
read it: its `id`. -/
structure NativeUploadResponse where
  id : String
  deriving DecidableEq, Repr

/-- `OpenAIFileAPI.upload` (`openai/fileapi.py` lines 18-41): every input
shape — path, bytes, or open stream — routes to one `files.create` SDK call
(`sdk` is its outcome), and the response id is returned. -/
def openai_file_upload_op (imp : Bool)
    (sdk : Except NativeExc NativeUploadResponse) :
    Except BoundaryError String :=
  match sdk with
  | .ok r => .ok r.id
  | .error e => .error (Sum.inr (openai_file_handle_exception imp e))

/-- `OpenAIFileAPI.download` (`openai/fileapi.py` lines 66-80): return the
fetched content bytes. -/
def openai_file_download_op (imp : Bool) (sdk : Except NativeExc Bytes) :
    Except BoundaryError Bytes :=
  match sdk with
  | .ok content => .ok content
  | .error e => .error (Sum.inr (openai_file_handle_exception imp e))

/-- `OpenAIFileAPI.delete` (`openai/fileapi.py` lines 82-92): the SDK delete
call returns nothing. -/
def openai_file_delete_op (imp : Bool) (sdk : Except NativeExc Unit) :
    Except BoundaryError Unit :=
  match sdk with
  | .ok u => .ok u
  | .error e => .error (Sum.inr (openai_file_handle_exception imp e))

/-- `OpenAIFileAPI.list` (`openai/fileapi.py` lines 94-122): the optional
purpose filter is passed through to the SDK call; every entry of
`response.data` is converted into a `FileObject` (the same field-for-field
construction as `retrieve`). -/
def openai_file_list_op (imp : Bool)
    (sdk : Except NativeExc (List NativeFileResponse)) :
    Except BoundaryError (List FileObject) :=
  match sdk with
  | .ok fs => .ok (fs.map openai_to_file_object)
  | .error e => .error (Sum.inr (openai_file_handle_exception imp e))

/-- `AnthropicFileAPI.upload` (`anthropic/fileapi.py` lines 53-92): every
input shape routes to one `beta.files.upload` SDK call, and the response id
is returned (`purpose` is ignored by Anthropic). -/
def anthropic_file_upload_op (imp : Bool)
    (sdk : Except NativeExc NativeUploadResponse) :
    Except BoundaryError String :=
  match sdk with
  | .ok r => .ok r.id
  | .error e => .error (Sum.inr (anthropic_file_handle_exception imp e))

/-- `AnthropicFileAPI.retrieve` (`anthropic/fileapi.py` lines 94-112):
convert the fetched metadata via `_to_file_object`. -/
def anthropic_file_retrieve_op (imp : Bool)
    (sdk : Except NativeExc AnthropicFileMetadata) :
    Except BoundaryError FileObject :=
  match sdk with
  | .ok r => .ok (anthropic_to_file_object r)
  | .error e => .error (Sum.inr (anthropic_file_handle_exception imp e))

/-- `AnthropicFileAPI.download` (`anthropic/fileapi.py` lines 114-136):
return the bytes read from the fetched response. -/
def anthropic_file_download_op (imp : Bool) (sdk : Except NativeExc Bytes) :
    Except BoundaryError Bytes :=
  match sdk with
  | .ok content => .ok content
  | .error e => .error (Sum.inr (anthropic_file_handle_exception imp e))

/-- `AnthropicFileAPI.delete` (`anthropic/fileapi.py` lines 138-156). -/
def anthropic_file_delete_op (imp : Bool) (sdk : Except NativeExc Unit) :
    Except BoundaryError Unit :=
  match sdk with
  | .ok u => .ok u
  | .error e => .error (Sum.inr (anthropic_file_handle_exception imp e))

/-- The collection loop of `AnthropicBatchProcess.list` (`anthropic/batch.py`
lines 180-186): append each converted batch, then break once
`len(batches) >= limit`.  `count` is the running `len(batches)` before the
current iteration. -/
def list_loop (limit count : Int) : List AnthropicBatchResponse → List BatchRequest
  | [] => []
  | b :: bs =>
    if count + 1 ≥ limit then [to_batch_request b]
    else to_batch_request b :: list_loop limit (count + 1) bs

/-- `AnthropicBatchProcess.list` (`anthropic/batch.py` lines 162-189; the
async body, lines 453-480, is structurally identical): `iter` is the sequence
the provider iterator would yield (the SDK auto-paginates, so it may be longer
than `limit`); a native exception is translated at the boundary. -/
def anthropic_list (imp : Bool) (limit : Int)
    (iter : Except NativeExc (List AnthropicBatchResponse)) :
    Except BoundaryError (List BatchRequest) :=
  match iter with
  | .error e => .error (Sum.inr (anthropic_batch_handle_exception imp e))
  | .ok bs => .ok (list_loop limit 0 bs)

/-- C7: across every adapter operation — batch create, status, result,
cancel and list, and file upload, retrieve, download, delete and list for
both the OpenAI and the Anthropic file adapters — and for every outcome of
the underlying provider SDK call, any exception that reaches the caller is a
translated library-taxonomy error (`Sum.inr`): a native provider exception
(`Sum.inl`) never crosses the adapter boundary. -/
theorem native_exceptions_never_leak :
    (∀ (α : Type) (imp : Bool) (parseJson : List Char → Except String α)
        (submit : List α → Except NativeExc AnthropicBatchResponse)
        (file : Option (List Char)) (requests : Option (List α)) x,
        create_op imp parseJson submit file requests = Except.error x →
        ∃ err, x = Sum.inr err)
    ∧ (∀ imp fetch x, status_op imp fetch = Except.error x → ∃ err, x = Sum.inr err)
    ∧ (∀ imp jid fetch resultsIter x,
        result_op imp jid fetch resultsIter = Except.error x → ∃ err, x = Sum.inr err)
    ∧ (∀ imp fetch x, cancel_op imp fetch = Except.error x → ∃ err, x = Sum.inr err)
    ∧ (∀ imp limit iter x,
        anthropic_list imp limit iter = Except.error x → ∃ err, x = Sum.inr err)
    ∧ (∀ imp fetch x,
        openai_file_retrieve_op imp fetch = Except.error x → ∃ err, x = Sum.inr err)
    ∧ (∀ imp iter x,
        anthropic_file_list_op imp iter = Except.error x → ∃ err, x = Sum.inr err)
    ∧ (∀ imp sdk x,
        openai_file_upload_op imp sdk = Except.error x → ∃ err, x = Sum.inr err)
    ∧ (∀ imp sdk x,
        openai_file_download_op imp sdk = Except.error x → ∃ err, x = Sum.inr err)
    ∧ (∀ imp sdk x,
        openai_file_delete_op imp sdk = Except.error x → ∃ err, x = Sum.inr err)
    ∧ (∀ imp sdk x,
        openai_file_list_op imp sdk = Except.error x → ∃ err, x = Sum.inr err)
    ∧ (∀ imp sdk x,
        anthropic_file_upload_op imp sdk = Except.error x → ∃ err, x = Sum.inr err)
    ∧ (∀ imp sdk x,
        anthropic_file_retrieve_op imp sdk = Except.error x → ∃ err, x = Sum.inr err)
    ∧ (∀ imp sdk x,
        anthropic_file_download_op imp sdk = Except.error x → ∃ err, x = Sum.inr err)
    ∧ (∀ imp sdk x,
        anthropic_file_delete_op imp sdk = Except.error x → ∃ err, x = Sum.inr err) := by
  refine ⟨?_, ?_, ?_, ?_, ?_, ?_, ?_, ?_, ?_, ?_, ?_, ?_, ?_, ?_, ?_⟩
  · intro α imp parseJson submit file requests x h
    unfold create_op at h
    rcases hc : create_requests parseJson file requests with be | rs
    · rw [hc] at h
      exact ⟨be, by simpa using h.symm⟩
    · rw [hc] at h
      rcases hs : submit rs with e | resp <;> simp [hs] at h
      exact ⟨anthropic_batch_handle_exception imp e, h.symm⟩
  · intro imp fetch x h
    rcases fetch with e | r <;> simp [status_op] at h
    exact ⟨anthropic_batch_handle_exception imp e, h.symm⟩
  · intro imp jid fetch resultsIter x h
    rcases fetch with e | batch
    · simp [result_op] at h
      exact ⟨anthropic_batch_handle_exception imp e, h.symm⟩
    · unfold result_op at h
      by_cases hg : batch.processing_status ≠ "ended"
      · simp [hg] at h
        exact ⟨_, h.symm⟩
      · rcases resultsIter with e | entries <;> simp [hg] at h
        exact ⟨anthropic_batch_handle_exception imp e, h.symm⟩
  · intro imp fetch x h
    rcases fetch with e | r <;> simp [cancel_op] at h
    exact ⟨anthropic_batch_handle_exception imp e, h.symm⟩
  · intro imp limit iter x h
    rcases iter with e | bs <;> simp [anthropic_list] at h
    exact ⟨anthropic_batch_handle_exception imp e, h.symm⟩
  · intro imp fetch x h
    rcases fetch with e | r <;> simp [openai_file_retrieve_op] at h
    exact ⟨openai_file_handle_exception imp e, h.symm⟩
  · intro imp iter x h
    rcases iter with e | fs <;> simp [anthropic_file_list_op] at h
    exact ⟨anthropic_file_handle_exception imp e, h.symm⟩
  · intro imp sdk x h
    rcases sdk with e | r <;> simp [openai_file_upload_op] at h
    exact ⟨openai_file_handle_exception imp e, h.symm⟩
  · intro imp sdk x h
    rcases sdk with e | content <;> simp [openai_file_download_op] at h
    exact ⟨openai_file_handle_exception imp e, h.symm⟩
  · intro imp sdk x h
    rcases sdk with e | u <;> simp [openai_file_delete_op] at h
    exact ⟨openai_file_handle_exception imp e, h.symm⟩
  · intro imp sdk x h
    rcases sdk with e | fs <;> simp [openai_file_list_op] at h
    exact ⟨openai_file_handle_exception imp e, h.symm⟩
  · intro imp sdk x h
    rcases sdk with e | r <;> simp [anthropic_file_upload_op] at h
    exact ⟨anthropic_file_handle_exception imp e, h.symm⟩
  · intro imp sdk x h
    rcases sdk with e | r <;> simp [anthropic_file_retrieve_op] at h
    exact ⟨anthropic_file_handle_exception imp e, h.symm⟩
  · intro imp sdk x h
    rcases sdk with e | content <;> simp [anthropic_file_download_op] at h
    exact ⟨anthropic_file_handle_exception imp e, h.symm⟩
  · intro imp sdk x h
    rcases sdk with e | u <;> simp [anthropic_file_delete_op] at h
    exact ⟨anthropic_file_handle_exception imp e, h.symm⟩

/-- C7 witness: a native SDK authentication failure during a status fetch and
a native not-found failure during a file download both reach the caller as
translated library errors. -/
theorem native_exceptions_never_leak_witness :
    (∃ x, status_op true (Except.error (NativeExc.authentication "invalid x-api-key" (some 401)))
        = Except.error x
      ∧ ∃ err, x = Sum.inr err)
    ∧ ∃ x, anthropic_file_download_op true (Except.error (NativeExc.notFound "no such file" (some 404)))
        = Except.error x
      ∧ ∃ err, x = Sum.inr err :=
  ⟨⟨Sum.inr (LLMError.authenticationError "invalid x-api-key"), rfl,
    native_exceptions_never_leak.2.1 true
      (Except.error (NativeExc.authentication "invalid x-api-key" (some 401))) _ rfl⟩,
   ⟨Sum.inr (LLMError.fileError ("File not found: " ++ "no such file")), rfl,
    native_exceptions_never_leak.2.2.2.2.2.2.2.2.2.2.2.2.2.1 true
      (Except.error (NativeExc.notFound "no such file" (some 404))) _ rfl⟩⟩

/-- `OpenAIConnector._validate_config` (`openai/__init__.py` lines 59-66):
`config.get("api_key") or os.environ.get("OPENAI_API_KEY")` with Python
falsiness (an absent or empty value falls through to the environment), then
`if not api_key: raise AuthenticationError(...)`.  (Quote characters in the
source message are elided here.) -/
def openai_validate_config (cfg_api_key env_api_key : Option String) :
    Except LLMError Unit :=
  let api_key := if pyTruthy cfg_api_key then cfg_api_key else env_api_key
  if pyTruthy api_key then Except.ok ()
  else Except.error (LLMError.authenticationError
    "OpenAI API key not found. Set it via config[api_key] or OPENAI_API_KEY environment variable.")

/-- The adapter-caching state of an `OpenAIConnector`: the lazily constructed
capability adapters `self._chat`, `self._batch`, `self._file`
(`openai/__init__.py` lines 55-57), with adapter instances represented by
identity tokens; `next_token` is the source of fresh identities, consumed once
per adapter construction. -/
structure OpenAIConnectorState where
  chat_adapter : Option Nat
  batch_adapter : Option Nat
  file_adapter : Option Nat
  next_token : Nat
  deriving DecidableEq, Repr

/-- `OpenAIConnector.__init__` (`openai/__init__.py` lines 31-57): raise
`ProviderImportError` when the SDK package is unavailable; otherwise
`LLMConnector.__init__` stores the config and runs `_validate_config`
(`base/__init__.py` lines 42-44), and on success the adapter caches start
empty. -/
def openai_connector_init (openaiAvailable : Bool)
    (cfg_api_key env_api_key : Option String) :
    Except LLMError OpenAIConnectorState :=
  if !openaiAvailable then
    Except.error (LLMError.providerImportError
      "OpenAI package is not installed. Install with: pip install openai")
  else
    match openai_validate_config cfg_api_key env_api_key with
    | .error e => .error e
    | .ok _ =>
      .ok { chat_adapter := none, batch_adapter := none
            file_adapter := none, next_token := 0 }

/-- `OpenAIConnector.chat` (`openai/__init__.py` lines 68-73): construct the
adapter on first access, cache it in `self._chat`, and return the cached
instance. -/
def connector_chat (s : OpenAIConnectorState) : OpenAIConnectorState × Nat :=
  match s.chat_adapter with
  | some a => (s, a)
  | none =>
    ({ s with chat_adapter := some s.next_token, next_token := s.next_token + 1 },
     s.next_token)

/-- `OpenAIConnector.batch` (`openai/__init__.py` lines 75-80). -/
def connector_batch (s : OpenAIConnectorState) : OpenAIConnectorState × Nat :=
  match s.batch_adapter with
  | some a => (s, a)
  | none =>
    ({ s with batch_adapter := some s.next_token, next_token := s.next_token + 1 },
     s.next_token)

/-- `OpenAIConnector.file` (`openai/__init__.py` lines 82-87). -/
def connector_file (s : OpenAIConnectorState) : OpenAIConnectorState × Nat :=
  match s.file_adapter with
  | some a => (s, a)
  | none =>
    ({ s with file_adapter := some s.next_token, next_token := s.next_token + 1 },
     s.next_token)

/-- C8: with the SDK importable, constructing the connector raises
`AuthenticationError` exactly when no API key is resolvable — the
configuration carries no (truthy) `api_key` and the `OPENAI_API_KEY`
environment value is also unset (Python falsiness: absent or empty) — and an
explicit config key makes the environment unnecessary. -/
theorem connector_auth_gate (cfg_api_key env_api_key : Option String) :
    ((∃ msg, openai_connector_init true cfg_api_key env_api_key
        = Except.error (LLMError.authenticationError msg))
      ↔ (pyTruthy cfg_api_key = false ∧ pyTruthy env_api_key = false))
    ∧ (∀ k, pyTruthy (some k) = true →
        ∃ s, openai_connector_init true (some k) env_api_key = Except.ok s) := by
  constructor
  · by_cases h1 : pyTruthy cfg_api_key <;> by_cases h2 : pyTruthy env_api_key <;>
      simp [openai_connector_init, openai_validate_config, h1, h2]
  · intro k hk
    exact ⟨{ chat_adapter := none, batch_adapter := none, file_adapter := none, next_token := 0 },
           by simp [openai_connector_init, openai_validate_config, hk]⟩

/-- C8 witness: no key anywhere is rejected with `AuthenticationError`; an
explicit config key with an unset environment succeeds. -/
theorem connector_auth_gate_witness :
    (∃ msg, openai_connector_init true none none
      = Except.error (LLMError.authenticationError msg))
    ∧ ∃ s, openai_connector_init true (some "sk-test") none = Except.ok s :=
  ⟨(connector_auth_gate none none).1.mpr ⟨rfl, rfl⟩,
   (connector_auth_gate (some "sk-test") none).2 "sk-test" (by decide)⟩

/-- C9: the capability accessors `chat()`, `batch()` and `file()` are
idempotent with identity-stable results: after any call, the returned adapter
is the cached one, and a repeated call changes nothing (same state, so no new
construction — `next_token` is untouched) and returns the very same adapter
token. -/
theorem adapter_accessors_cached (s : OpenAIConnectorState) :
    (connector_chat (connector_chat s).1 = ((connector_chat s).1, (connector_chat s).2))
    ∧ (connector_batch (connector_batch s).1 = ((connector_batch s).1, (connector_batch s).2))
    ∧ (connector_file (connector_file s).1 = ((connector_file s).1, (connector_file s).2))
    ∧ ((connector_chat s).1.chat_adapter = some (connector_chat s).2)
    ∧ ((connector_batch s).1.batch_adapter = some (connector_batch s).2)
    ∧ ((connector_file s).1.file_adapter = some (connector_file s).2) := by
  refine ⟨?_, ?_, ?_, ?_, ?_, ?_⟩ <;>
    [rcases h : s.chat_adapter with _ | a; rcases h : s.batch_adapter with _ | a;
     rcases h : s.file_adapter with _ | a; rcases h : s.chat_adapter with _ | a;
     rcases h : s.batch_adapter with _ | a; rcases h : s.file_adapter with _ | a] <;>
    simp [connector_chat, connector_batch, connector_file, h]

/-- The collection loop equals conversion of a prefix of the yield sequence:
the first `max (limit - count) 1` items (the loop appends before testing the
break condition, hence the lower bound of one). -/
theorem list_loop_eq (limit : Int) (items : List AnthropicBatchResponse) :
    ∀ count : Int, list_loop limit count items
      = (items.take (max (limit - count) 1).toNat).map to_batch_request := by
  induction items with
  | nil => intro count; simp [list_loop]
  | cons b bs ih =>
    intro count
    by_cases h : count + 1 ≥ limit
    · have h1 : (max (limit - count) 1).toNat = 1 := by omega
      simp [list_loop, h, h1]
    · have hk : (max (limit - count) 1).toNat = (limit - (count + 1)).toNat + 1 := by omega
      have hm : (max (limit - (count + 1)) 1).toNat = (limit - (count + 1)).toNat := by omega
      simp [list_loop, h, hk, ih (count + 1), hm]

/-- C10 counterexample: with `limit = 0` and a one-batch iterator, `list`
returns one entry — more than `limit` — because the loop appends each batch
before testing the break condition. -/
theorem anthropic_list_limit_zero_cex :
    (anthropic_list true 0 (Except.ok [sampleInProgress])).map List.length
      = Except.ok 1
    ∧ ¬((1 : Int) ≤ 0) :=
  ⟨rfl, by decide⟩

/-- C10 (amended): for every limit ≥ 1 and every yield sequence of the
underlying provider iterator, `list` returns exactly the converted first
`limit` entries — hence at most `limit` entries, truncated locally even if
the provider would yield more, preserving iterator order. -/
theorem anthropic_list_truncates (imp : Bool) (limit : Int) (h : 1 ≤ limit)
    (items : List AnthropicBatchResponse) :
    anthropic_list imp limit (Except.ok items)
      = Except.ok ((items.take limit.toNat).map to_batch_request)
    ∧ ((items.take limit.toNat).map to_batch_request).length ≤ limit.toNat := by
  have heq := list_loop_eq limit items 0
  have hmax : (max (limit - 0) 1).toNat = limit.toNat := by omega
  rw [hmax] at heq
  refine ⟨by simp [anthropic_list, heq], ?_⟩
  simp [List.length_take]

/-- C10 witness: `limit = 2` against a three-batch yield sequence returns the
first two conversions in order. -/
theorem anthropic_list_truncates_witness :
    anthropic_list true 2 (Except.ok [sampleInProgress, sampleCanceling, sampleEnded])
      = Except.ok [to_batch_request sampleInProgress, to_batch_request sampleCanceling] :=
  (anthropic_list_truncates true 2 (by decide)
    [sampleInProgress, sampleCanceling, sampleEnded]).1

end LLMConnector
